import Mathlib

/-!
Verification of the realtime audio-bridge core of the ai-memory repository
(`app/main.py`, OpenAI Realtime / Twilio media-stream section).

Byte buffers are modelled as `List Nat` (each element one byte, `< 256`);
16-bit little-endian PCM samples are the byte pairs of such a buffer.
-/

namespace AiMemory

/-! ### Byte-pair plumbing shared by the transcoder functions

`np.frombuffer(b, dtype=np.int16)` views an even-length byte buffer as its
list of consecutive byte pairs; `.tobytes()` flattens back. -/

def pairs : List Nat → List (Nat × Nat)
  | a :: b :: rest => (a, b) :: pairs rest
  | _ => []

def unpairs : List (Nat × Nat) → List Nat
  | [] => []
  | (a, b) :: rest => a :: b :: unpairs rest

/-- `np.repeat(arr, 3)`: every sample repeated three times in place. -/
def rep3 {α : Type} : List α → List α
  | [] => []
  | x :: xs => x :: x :: x :: rep3 xs

/-- `arr[::3]`: stride-3 decimation, keeping indices 0, 3, 6, …. -/
def every3 {α : Type} : List α → List α
  | [] => []
  | [x] => [x]
  | [x, _] => [x]
  | x :: _ :: _ :: rest => x :: every3 rest

/-- `upsample_8k_to_24k` (app/main.py:1141): view as int16 samples,
`np.repeat(arr, 3)`, back to bytes. -/
def upsample_8k_to_24k (bs : List Nat) : List Nat :=
  unpairs (rep3 (pairs bs))

/-- `downsample_24k_to_8k` (app/main.py:1147): view as int16 samples,
keep every third sample (`arr[::3]`), back to bytes. -/
def downsample_24k_to_8k (bs : List Nat) : List Nat :=
  unpairs (every3 (pairs bs))

theorem pairs_unpairs (l : List (Nat × Nat)) : pairs (unpairs l) = l := by
  induction l with
  | nil => rfl
  | cons p rest ih => cases p; simp [unpairs, pairs, ih]

theorem unpairs_pairs : ∀ (x : List Nat), x.length % 2 = 0 → unpairs (pairs x) = x
  | [], _ => rfl
  | [_], h => by simp at h
  | a :: b :: rest, h => by
      have hr : rest.length % 2 = 0 := by
        simp only [List.length_cons] at h; omega
      simp [pairs, unpairs, unpairs_pairs rest hr]

theorem every3_rep3 {α : Type} (l : List α) : every3 (rep3 l) = l := by
  induction l with
  | nil => rfl
  | cons x xs ih => simp [rep3, every3, ih]

/-- C4: for every even-length PCM16 byte buffer `x`,
`downsample3x (upsample3x x) = x`: repeating each 16-bit sample three times
and then keeping every third sample is the identity. -/
theorem C4_updown_roundtrip (x : List Nat) (h : x.length % 2 = 0) :
    downsample_24k_to_8k (upsample_8k_to_24k x) = x := by
  unfold downsample_24k_to_8k upsample_8k_to_24k
  rw [pairs_unpairs, every3_rep3, unpairs_pairs x h]

theorem C4_witness :
    ([1, 2, 3, 4] : List Nat).length % 2 = 0 ∧
      downsample_24k_to_8k (upsample_8k_to_24k [1, 2, 3, 4]) = [1, 2, 3, 4] :=
  ⟨by decide, C4_updown_roundtrip [1, 2, 3, 4] (by decide)⟩

/-! ### Mu-law codec

`pcmu8k_to_pcm16_8k` (app/main.py:1137) is `audioop.ulaw2lin(b, 2)` and
`pcm16_8k_to_pcmu8k` (app/main.py:1153) is `audioop.lin2ulaw(b, 2)`; the
definitions below embed CPython's audioop implementation
(`st_ulaw2linear16` and `st_14linear2ulaw` applied to `sample >> 2`). -/

/-- Mu-law expansion of one byte: complement, extract quantization and
segment bits, shift and unbias (CPython `st_ulaw2linear16`). -/
def ulaw2lin16 (u : Nat) : Int :=
  let v := 255 - u
  let t : Nat := (((v &&& 15) <<< 3) + 132) <<< ((v &&& 112) >>> 4)
  if v &&& 128 ≠ 0 then (132 : Int) - t else (t : Int) - 132

/-- Segment end table of the mu-law compressor (CPython `seg_uend`). -/
def seg_uend : List Nat := [63, 127, 255, 511, 1023, 2047, 4095, 8191]

/-- Index of the first table entry `≥ val`, or the table length
(CPython `search`). -/
def ulawSearch (val : Nat) : List Nat → Nat
  | [] => 0
  | t :: rest => if val ≤ t then 0 else ulawSearch val rest + 1

/-- Mu-law compression of one 14-bit sample (CPython `st_14linear2ulaw`):
sign/magnitude split, clip, bias by 33, segment search, then combine and
complement. -/
def st_14linear2ulaw (pcm : Int) : Nat :=
  let mask : Nat := if pcm < 0 then 127 else 255
  let mag0 : Nat := if pcm < 0 then (-pcm).toNat else pcm.toNat
  let mag : Nat := min mag0 32635 + 33
  let seg : Nat := ulawSearch mag seg_uend
  if 8 ≤ seg then 127 ^^^ mask
  else ((seg <<< 4) ||| ((mag >>> (seg + 1)) &&& 15)) ^^^ mask

/-- Mu-law compression of one 16-bit sample: `lin2ulaw` with width 2 feeds
`st_14linear2ulaw` the arithmetic shift `sample >> 2`. -/
def lin2ulaw1 (s : Int) : Nat := st_14linear2ulaw (Int.fdiv s 4)

/-- Read one little-endian signed 16-bit sample from a byte pair. -/
def int16OfBytes (a b : Nat) : Int :=
  let n := a % 256 + 256 * (b % 256)
  if n < 32768 then (n : Int) else (n : Int) - 65536

/-- Write one signed 16-bit sample as a little-endian byte pair. -/
def bytesOfInt16 (z : Int) : Nat × Nat :=
  let n := (z % 65536).toNat
  (n % 256, n / 256)

/-- `pcmu8k_to_pcm16_8k` (app/main.py:1137): `audioop.ulaw2lin(b, 2)`,
1 mu-law byte to 2 PCM16 bytes. -/
def pcmu8k_to_pcm16_8k (bs : List Nat) : List Nat :=
  unpairs (bs.map fun u => bytesOfInt16 (ulaw2lin16 u))

/-- `pcm16_8k_to_pcmu8k` (app/main.py:1153): `audioop.lin2ulaw(b, 2)`,
2 PCM16 bytes to 1 mu-law byte. -/
def pcm16_8k_to_pcmu8k (bs : List Nat) : List Nat :=
  (pairs bs).map fun p => lin2ulaw1 (int16OfBytes p.1 p.2)

set_option maxRecDepth 4000

theorem ulaw_key_fin :
    ∀ u : Fin 256, ulaw2lin16 (lin2ulaw1 (ulaw2lin16 u.val)) = ulaw2lin16 u.val := by
  decide

theorem ulaw_range_fin :
    ∀ u : Fin 256, -32768 ≤ ulaw2lin16 u.val ∧ ulaw2lin16 u.val < 32768 := by
  decide

theorem ulaw_key (u : Nat) (hu : u < 256) :
    ulaw2lin16 (lin2ulaw1 (ulaw2lin16 u)) = ulaw2lin16 u :=
  ulaw_key_fin ⟨u, hu⟩

theorem ulaw_range (u : Nat) (hu : u < 256) :
    -32768 ≤ ulaw2lin16 u ∧ ulaw2lin16 u < 32768 :=
  ulaw_range_fin ⟨u, hu⟩

theorem xor_lt_256 {a b : Nat} (ha : a < 256) (hb : b < 256) : a ^^^ b < 256 := by
  have h : (256 : Nat) = 2 ^ 8 := by norm_num
  rw [h] at ha hb ⊢
  exact Nat.bitwise_lt ha hb

theorem or_lt_128 {a b : Nat} (ha : a < 128) (hb : b < 128) : a ||| b < 128 := by
  have h : (128 : Nat) = 2 ^ 7 := by norm_num
  rw [h] at ha hb ⊢
  exact Nat.bitwise_lt ha hb

theorem st14_lt (pcm : Int) : st_14linear2ulaw pcm < 256 := by
  have key : ∀ mask mag : Nat, mask < 256 →
      (if 8 ≤ ulawSearch mag seg_uend then 127 ^^^ mask
       else ((ulawSearch mag seg_uend <<< 4) |||
         ((mag >>> (ulawSearch mag seg_uend + 1)) &&& 15)) ^^^ mask) < 256 := by
    intro mask mag hmask
    split
    · exact xor_lt_256 (by norm_num) hmask
    · rename_i hseg
      refine xor_lt_256 (lt_of_lt_of_le (or_lt_128 ?_ ?_) (by norm_num)) hmask
      · rw [Nat.shiftLeft_eq]
        have h7 : ulawSearch mag seg_uend < 8 := by omega
        have h16 : (2 : Nat) ^ 4 = 16 := by norm_num
        rw [h16]
        omega
      · exact lt_of_le_of_lt Nat.and_le_right (by norm_num)
  unfold st_14linear2ulaw
  apply key
  split <;> norm_num

theorem int16_roundtrip (z : Int) (h1 : -32768 ≤ z) (h2 : z < 32768) :
    int16OfBytes (bytesOfInt16 z).1 (bytesOfInt16 z).2 = z := by
  simp only [int16OfBytes, bytesOfInt16]
  split <;> omega

theorem decode_encode_decode (us : List Nat) (h : ∀ u ∈ us, u < 256) :
    pcmu8k_to_pcm16_8k (pcm16_8k_to_pcmu8k (pcmu8k_to_pcm16_8k us))
      = pcmu8k_to_pcm16_8k us := by
  unfold pcmu8k_to_pcm16_8k pcm16_8k_to_pcmu8k
  rw [pairs_unpairs, List.map_map, List.map_map]
  congr 1
  apply List.map_congr_left
  intro u hu
  have hu256 : u < 256 := h u hu
  have hr := ulaw_range u hu256
  simp only [Function.comp]
  rw [int16_roundtrip (ulaw2lin16 u) hr.1 hr.2, ulaw_key u hu256]

/-- C7: for every mu-law-encodable (even-length) PCM16 buffer `x`,
`decodeMuLaw (encodeMuLaw (decodeMuLaw (encodeMuLaw x))) =
decodeMuLaw (encodeMuLaw x)`: the mu-law round trip is idempotent after the
first lossy pass. -/
theorem C7_mulaw_idempotent (x : List Nat) (_hx : x.length % 2 = 0) :
    pcmu8k_to_pcm16_8k (pcm16_8k_to_pcmu8k
        (pcmu8k_to_pcm16_8k (pcm16_8k_to_pcmu8k x)))
      = pcmu8k_to_pcm16_8k (pcm16_8k_to_pcmu8k x) := by
  refine decode_encode_decode (pcm16_8k_to_pcmu8k x) ?_
  intro u hu
  unfold pcm16_8k_to_pcmu8k at hu
  obtain ⟨p, _, rfl⟩ := List.mem_map.mp hu
  exact st14_lt _

theorem C7_witness :
    ([52, 18, 0, 128] : List Nat).length % 2 = 0 ∧
      pcmu8k_to_pcm16_8k (pcm16_8k_to_pcmu8k
          (pcmu8k_to_pcm16_8k (pcm16_8k_to_pcmu8k [52, 18, 0, 128])))
        = pcmu8k_to_pcm16_8k (pcm16_8k_to_pcmu8k [52, 18, 0, 128]) :=
  ⟨by decide, C7_mulaw_idempotent [52, 18, 0, 128] (by decide)⟩

/-! ### Realtime speech client (`OAIRealtime`, app/main.py:1157-1390) -/

/-- Outbound events written to the speech-service socket. -/
inductive OAIOutEvent : Type
  | sessionUpdate
  | responseCreate
  | bufferAppend (audio : List Nat)
  | bufferCommit
deriving DecidableEq

/-- Inbound speech-service events dispatched by `OAIRealtime._on_message`
(app/main.py:1204-1324). -/
inductive OAIInEvent : Type
  | audioDelta (b : List Nat)
  | textDelta (t : String)
  | textDone (t : String)
  | sessionCreated
  | speechStarted
  | speechStopped
  | itemCreated (role : String) (content : List (String × String))
  | audioTranscriptDone (t : String)
  | inputTranscriptionCompleted (t : String)
  | responseDone
  | errorEvent (msg : String)
  | unknownEvent
deriving DecidableEq

/-- State of one `OAIRealtime` client: the socket handle (`self.ws`, set by
`connect`), the buffered-bytes counter (`self.audio_buffer_size`), the thread
key (`self.thread_id`), the rolling-transcript entries the client appends to
`THREAD_HISTORY[self.thread_id]`, and a count of `ws.close()` calls. -/
structure OAIState : Type where
  ws : Bool
  audio_buffer_size : Nat
  thread_id : Option String
  transcript : List (String × String)
  closeCount : Nat
deriving DecidableEq

/-- Append one (role, text) entry to the rolling transcript, guarded by
`if self.thread_id:` as in the source handlers. -/
def appendTranscript (s : OAIState) (role text : String) : OAIState :=
  match s.thread_id with
  | some _ => { s with transcript := s.transcript ++ [(role, text)] }
  | none => s

/-- `OAIRealtime._on_message` (app/main.py:1204): the state effect of each
inbound event type. `input_audio_buffer.speech_stopped` (line 1242) and
`response.done` (line 1281) reset `audio_buffer_size` to 0; conversation
items and transcripts append to the thread history; every other event only
logs or invokes callbacks. -/
def on_message (s : OAIState) (ev : OAIInEvent) : OAIState :=
  match ev with
  | .speechStopped => { s with audio_buffer_size := 0 }
  | .responseDone => { s with audio_buffer_size := 0 }
  | .itemCreated role content =>
      if role = "user" ∨ role = "assistant" then
        content.foldl (fun st c =>
          if c.1 = "input_text" then appendTranscript st "user" c.2
          else if c.1 = "text" then appendTranscript st "assistant" c.2
          else st) s
      else s
  | .audioTranscriptDone t =>
      if t ≠ "" then appendTranscript s "assistant" t else s
  | .inputTranscriptionCompleted t =>
      if t ≠ "" then appendTranscript s "user" t else s
  | _ => s

/-- `OAIRealtime.send_pcm16_24k` (app/main.py:1361): no-op without a socket;
otherwise emits one `input_audio_buffer.append` event and adds the chunk
length to `audio_buffer_size`. -/
def send_pcm16_24k (s : OAIState) (chunk : List Nat) : OAIState × List OAIOutEvent :=
  if s.ws then
    ({ s with audio_buffer_size := s.audio_buffer_size + chunk.length },
      [OAIOutEvent.bufferAppend chunk])
  else (s, [])

/-- `OAIRealtime.commit_and_respond` (app/main.py:1372): no-op without a
socket; below `MIN_BUFFER_SIZE = 4800` buffered bytes nothing is emitted and
the counter is unchanged; otherwise one commit event, then one
response-request event, and the counter resets to 0. -/
def commit_and_respond (s : OAIState) : OAIState × List OAIOutEvent :=
  if s.ws then
    if 4800 ≤ s.audio_buffer_size then
      ({ s with audio_buffer_size := 0 },
        [OAIOutEvent.bufferCommit, OAIOutEvent.responseCreate])
    else (s, [])
  else (s, [])

/-- `OAIRealtime.close` (app/main.py:1387): `self.ws.close()` when a socket
exists. -/
def close (s : OAIState) : OAIState :=
  if s.ws then { s with closeCount := s.closeCount + 1 } else s

/-- `OAIRealtime.connect` (app/main.py:1338): starts the socket thread, then
blocks on `self._connected.wait(timeout=5)`. `ready_at` is the instant
(seconds after the wait begins) at which `_on_open` sets the event, if ever;
the result is how long the caller is blocked. A timeout is swallowed, so the
result is always `Except.ok`. -/
def connect_wait (ready_at : Option ℚ) : Except String ℚ :=
  match ready_at with
  | some t => Except.ok (min t 5)
  | none => Except.ok 5

/-! ### Telephony receive loop (`media_stream_endpoint`, app/main.py:1392-1665) -/

/-- A decoded JSON value, as found in `customParameters`. -/
inductive JValue : Type
  | jstr (s : String)
  | jbool (b : Bool)
  | jnum (n : Int)
  | jnull
deriving DecidableEq

/-- `custom_params.get("is_callback") == "True"` (app/main.py:1486): Python
equality of the parameter value against the string literal `"True"`. An
absent key (`None`), a boolean, a number, or any other string compares
unequal. -/
def is_callback_flag (v : Option JValue) : Bool :=
  match v with
  | some (JValue.jstr s) => s == "True"
  | _ => false

/-- Construction of the per-call client on a `start` event
(app/main.py:1622-1631): fresh buffer counter,
`thread_id = "user_" + user_id` when a user id is present (line 1489),
socket handle established by `connect`. -/
def initOAI (userId : Option String) : OAIState :=
  { ws := true
    audio_buffer_size := 0
    thread_id := userId.map (fun u => "user_" ++ u)
    transcript := []
    closeCount := 0 }

/-- One inbound item on the telephony socket: a frame whose text is
malformed JSON (`json.loads` raises), a parsed frame of a known event type,
a frame with an unrecognized event type, or a `WebSocketDisconnect` raised
by the receive call. -/
inductive TwMsg : Type
  | malformed
  | start (streamSid : String) (userId : Option String) (isCallback : Option JValue)
  | media (payload : List Nat)
  | mark
  | stop
  | unknown
  | disconnect
deriving DecidableEq

/-- State of one run of `media_stream_endpoint` (app/main.py:1392): the
`stream_sid` and `oai` locals, the `last_media_ts` timestamp (seconds),
whether the handler has left the receive loop (`ended`), how many times the
loop invoked `oai.commit_and_respond()` (`commit_calls`), how many times a
post-call hook was invoked at teardown (`hook_calls`; the source never
invokes one), and the `is_callback` flag parsed on `start`. -/
structure BridgeState : Type where
  stream_sid : Option String
  oai : Option OAIState
  last_media_ts : ℚ
  ended : Bool
  commit_calls : Nat
  hook_calls : Nat
  is_callback : Bool
deriving DecidableEq

/-- Auto-commit on pause (app/main.py:1653-1656), run at the end of every
receive-loop iteration: when more than 0.7 s have passed since the last
media frame and a client exists, call `commit_and_respond` and refresh
`last_media_ts`. -/
def inactivityCheck (now : ℚ) (st : BridgeState) : BridgeState :=
  match st.oai with
  | some o =>
      if 7/10 < now - st.last_media_ts then
        { st with oai := some (commit_and_respond o).1
                  last_media_ts := now
                  commit_calls := st.commit_calls + 1 }
      else st
  | none => st

/-- Leaving the receive loop — by `break` on `stop`, by
`WebSocketDisconnect`, or by any other exception (app/main.py:1649-1665):
the `finally` block closes the speech client when one exists and logs.
No post-call hook is invoked. -/
def endSession (st : BridgeState) : BridgeState :=
  { st with ended := true, oai := st.oai.map close }

/-- One iteration of the receive loop of `media_stream_endpoint`
(app/main.py:1477-1656), receiving one inbound item at time `now`.
A malformed frame raises out of the loop (there is no try/except inside the
loop body), landing in the same teardown as `stop` and disconnects. -/
def loopStep (st : BridgeState) (now : ℚ) (msg : TwMsg) : BridgeState :=
  if st.ended then st
  else
    match msg with
    | .malformed => endSession st
    | .disconnect => endSession st
    | .stop => endSession st
    | .start sid uid cb =>
        inactivityCheck now
          { st with stream_sid := some sid
                    is_callback := is_callback_flag cb
                    oai := some (initOAI uid) }
    | .media payload =>
        let st1 :=
          match st.oai with
          | some o =>
              { st with
                  oai := some (send_pcm16_24k o
                    (upsample_8k_to_24k (pcmu8k_to_pcm16_8k payload))).1
                  last_media_ts := now }
          | none => { st with last_media_ts := now }
        inactivityCheck now st1
    | .mark =>
        let st1 :=
          match st.oai with
          | some o =>
              { st with oai := some (commit_and_respond o).1
                        commit_calls := st.commit_calls + 1 }
          | none => st
        inactivityCheck now st1
    | .unknown => inactivityCheck now st

/-- The receive loop over a list of timestamped inbound items. -/
def runLoop : BridgeState → List (ℚ × TwMsg) → BridgeState
  | st, [] => st
  | st, (now, m) :: rest => runLoop (loopStep st now m) rest

/-- The receive loop restricted to iterations whose frames carry no
recognized event (only the inactivity check runs). -/
def runChecks : BridgeState → List ℚ → BridgeState
  | st, [] => st
  | st, t :: rest => runChecks (loopStep st t TwMsg.unknown) rest

/-- A speech client with an open socket and an empty buffer. -/
def oaiOpen : OAIState :=
  { ws := true, audio_buffer_size := 0, thread_id := none
    transcript := [], closeCount := 0 }

/-- An active bridge session, as after a `start` event. -/
def stActive : BridgeState :=
  { stream_sid := some "MZ0", oai := some oaiOpen, last_media_ts := 0
    ended := false, commit_calls := 0, hook_calls := 0, is_callback := false }

/-- C1: `commit_and_respond` on a client with an open socket: below 4800
buffered bytes it emits no commit and no response-request event and leaves
`audio_buffer_size` unchanged; at or above 4800 it emits exactly one commit
event followed by exactly one response-request event and resets
`audio_buffer_size` to 0. -/
theorem C1_commit_and_respond (s : OAIState) (hws : s.ws = true) :
    (s.audio_buffer_size < 4800 → commit_and_respond s = (s, [])) ∧
    (4800 ≤ s.audio_buffer_size →
      (commit_and_respond s).1 = { s with audio_buffer_size := 0 } ∧
      (commit_and_respond s).2
        = [OAIOutEvent.bufferCommit, OAIOutEvent.responseCreate]) := by
  constructor
  · intro h
    unfold commit_and_respond
    rw [if_pos hws, if_neg (by omega)]
  · intro h
    unfold commit_and_respond
    rw [if_pos hws, if_pos h]
    exact ⟨rfl, rfl⟩

/-- A speech client with an open socket and exactly 4800 buffered bytes. -/
def oaiFull : OAIState :=
  { ws := true, audio_buffer_size := 4800, thread_id := none
    transcript := [], closeCount := 0 }

theorem C1_witness :
    commit_and_respond oaiOpen = (oaiOpen, []) ∧
    (commit_and_respond oaiFull).1 = { oaiFull with audio_buffer_size := 0 } ∧
    (commit_and_respond oaiFull).2
      = [OAIOutEvent.bufferCommit, OAIOutEvent.responseCreate] :=
  ⟨(C1_commit_and_respond oaiOpen rfl).1 (by decide),
   ((C1_commit_and_respond oaiFull rfl).2 (by decide)).1,
   ((C1_commit_and_respond oaiFull rfl).2 (by decide)).2⟩

/-- A speech client with an open socket and 100 buffered bytes. -/
def oaiBuf100 : OAIState :=
  { ws := true, audio_buffer_size := 100, thread_id := none
    transcript := [], closeCount := 0 }

/-- C2 counterexample: handling the inbound `speech_stopped` event does not
leave `audio_buffer_size` unchanged — `_on_message` (app/main.py:1242)
resets it to 0. -/
theorem C2_counterexample :
    ¬ (on_message oaiBuf100 OAIInEvent.speechStopped).audio_buffer_size
        = oaiBuf100.audio_buffer_size := by
  decide

theorem appendTranscript_buffer (st : OAIState) (r t : String) :
    (appendTranscript st r t).audio_buffer_size = st.audio_buffer_size := by
  unfold appendTranscript
  cases st.thread_id <;> rfl

theorem itemFold_buffer : ∀ (cs : List (String × String)) (st : OAIState),
    (cs.foldl (fun st2 c =>
        if c.1 = "input_text" then appendTranscript st2 "user" c.2
        else if c.1 = "text" then appendTranscript st2 "assistant" c.2
        else st2) st).audio_buffer_size = st.audio_buffer_size
  | [], _ => rfl
  | c :: rest, st => by
      rw [List.foldl_cons, itemFold_buffer rest]
      split
      · rw [appendTranscript_buffer]
      · split
        · rw [appendTranscript_buffer]
        · rfl

/-- C2 amended: handling inbound speech-service events leaves
`audio_buffer_size` unchanged except for `speech_stopped` and
`response.done`, whose handlers (app/main.py:1242, 1281) reset it to 0; so
the counter is mutated by send-audio, commit, and those two inbound
handlers. -/
theorem C2_buffer_mutators (s : OAIState) (ev : OAIInEvent) :
    (on_message s ev).audio_buffer_size =
      if ev = OAIInEvent.speechStopped ∨ ev = OAIInEvent.responseDone then 0
      else s.audio_buffer_size := by
  cases ev with
  | itemCreated role content =>
      simp only [on_message]
      split
      · simp [itemFold_buffer]
      · simp
  | audioTranscriptDone t =>
      simp only [on_message]
      split <;> simp [appendTranscript_buffer]
  | inputTranscriptionCompleted t =>
      simp only [on_message]
      split <;> simp [appendTranscript_buffer]
  | _ => simp [on_message]

/-- C3 counterexample: a malformed-JSON telephony frame is not dropped —
`json.loads` raises out of the receive loop (no try/except inside the loop
body), the handler's exception path runs, and the session is torn down with
the speech client closed. -/
theorem C3_counterexample :
    (runLoop stActive [(1/10, TwMsg.malformed)]).ended = true ∧
    (runLoop stActive [(1/10, TwMsg.malformed)]).oai
      = some { oaiOpen with closeCount := 1 } := by
  constructor <;> rfl

theorem inactivityCheck_ended (now : ℚ) (st : BridgeState) :
    (inactivityCheck now st).ended = st.ended := by
  unfold inactivityCheck
  cases st.oai with
  | none => rfl
  | some o =>
      dsimp only
      split <;> rfl

/-- C3 amended: a malformed-JSON frame terminates the receive loop — the
exception is caught and logged outside the loop and the session is torn
down (`finally` closes the speech client) — while a frame with an
unrecognized event type is dropped without note and the loop continues,
running only the end-of-iteration inactivity check. -/
theorem C3_malformed_teardown (st : BridgeState) (now : ℚ)
    (h : st.ended = false) :
    loopStep st now TwMsg.malformed = endSession st ∧
    (endSession st).ended = true ∧
    loopStep st now TwMsg.unknown = inactivityCheck now st ∧
    (loopStep st now TwMsg.unknown).ended = false := by
  refine ⟨?_, rfl, ?_, ?_⟩
  · unfold loopStep
    rw [if_neg (by simp [h])]
  · unfold loopStep
    rw [if_neg (by simp [h])]
  · unfold loopStep
    rw [if_neg (by simp [h])]
    rw [inactivityCheck_ended]
    exact h

theorem C3_witness :
    loopStep stActive (1/10) TwMsg.malformed = endSession stActive ∧
    (loopStep stActive (1/10) TwMsg.unknown).ended = false :=
  ⟨(C3_malformed_teardown stActive (1/10) rfl).1,
   (C3_malformed_teardown stActive (1/10) rfl).2.2.2⟩

theorem loopStep_unknown_noFire (st : BridgeState) (now : ℚ)
    (h : ¬ 7/10 < now - st.last_media_ts) :
    loopStep st now TwMsg.unknown = st := by
  unfold loopStep
  split
  · rfl
  · show inactivityCheck now st = st
    unfold inactivityCheck
    cases st.oai with
    | none => rfl
    | some o =>
        dsimp only
        rw [if_neg h]

theorem loopStep_unknown_fire (st : BridgeState) (o : OAIState) (now : ℚ)
    (hend : st.ended = false) (hoai : st.oai = some o)
    (h : 7/10 < now - st.last_media_ts) :
    loopStep st now TwMsg.unknown =
      { st with oai := some (commit_and_respond o).1
                last_media_ts := now
                commit_calls := st.commit_calls + 1 } := by
  unfold loopStep
  rw [if_neg (by simp [hend])]
  show inactivityCheck now st = _
  unfold inactivityCheck
  rw [hoai]
  dsimp only
  rw [if_pos h]

theorem runChecks_noFire : ∀ (ts : List ℚ) (st : BridgeState),
    (∀ t ∈ ts, ¬ 7/10 < t - st.last_media_ts) → runChecks st ts = st
  | [], _, _ => rfl
  | t :: rest, st, h => by
      show runChecks (loopStep st t TwMsg.unknown) rest = st
      rw [loopStep_unknown_noFire st t (h t (by simp))]
      exact runChecks_noFire rest st (fun t2 ht2 => h t2 (by simp [ht2]))

theorem runChecks_oneFire : ∀ (ts : List ℚ) (st : BridgeState) (o : OAIState),
    st.ended = false → st.oai = some o →
    (∀ t ∈ ts, t - st.last_media_ts ≤ 701/1000) →
    (∃ t ∈ ts, 7/10 < t - st.last_media_ts) →
    (runChecks st ts).commit_calls = st.commit_calls + 1
  | [], _, _, _, _, _, hex => by simp at hex
  | t :: rest, st, o, hend, hoai, hle, hex => by
      show (runChecks (loopStep st t TwMsg.unknown) rest).commit_calls
        = st.commit_calls + 1
      by_cases hf : 7/10 < t - st.last_media_ts
      · rw [loopStep_unknown_fire st o t hend hoai hf]
        have hside : ∀ t2 ∈ rest,
            ¬ 7/10 < t2 -
              ({ st with oai := some (commit_and_respond o).1
                         last_media_ts := t
                         commit_calls := st.commit_calls + 1 }
                : BridgeState).last_media_ts := by
          intro t2 ht2
          dsimp only
          have h1 : t2 - st.last_media_ts ≤ 701/1000 := hle t2 (by simp [ht2])
          intro hcon
          linarith
        rw [runChecks_noFire rest _ hside]
      · rw [loopStep_unknown_noFire st t hf]
        refine runChecks_oneFire rest st o hend hoai
          (fun t2 ht2 => hle t2 (by simp [ht2])) ?_
        obtain ⟨tx, htx, hgt⟩ := hex
        rcases List.mem_cons.mp htx with heq | hmem
        · exact absurd (heq ▸ hgt) hf
        · exact ⟨tx, hmem, hgt⟩

/-- C5: the inactivity check run on every receive-loop iteration: (i) while
the session is active, an iteration more than 0.7 s after the last media
frame calls `commit_and_respond` once and refreshes `last_media_ts`;
(ii) a run of media-less iterations all within 701 ms of the last media
frame, one of which exceeds 700 ms, produces exactly one forced commit call;
(iii) a run all within 699 ms produces none and changes nothing. -/
theorem C5_inactivity_commit :
    (∀ (st : BridgeState) (o : OAIState) (now : ℚ),
        st.ended = false → st.oai = some o → 7/10 < now - st.last_media_ts →
        loopStep st now TwMsg.unknown =
          { st with oai := some (commit_and_respond o).1
                    last_media_ts := now
                    commit_calls := st.commit_calls + 1 }) ∧
    (∀ (st : BridgeState) (o : OAIState) (ts : List ℚ),
        st.ended = false → st.oai = some o →
        (∀ t ∈ ts, t - st.last_media_ts ≤ 701/1000) →
        (∃ t ∈ ts, 7/10 < t - st.last_media_ts) →
        (runChecks st ts).commit_calls = st.commit_calls + 1) ∧
    (∀ (st : BridgeState) (ts : List ℚ),
        (∀ t ∈ ts, t - st.last_media_ts ≤ 699/1000) →
        runChecks st ts = st) := by
  refine ⟨loopStep_unknown_fire, ?_, ?_⟩
  · intro st o ts hend hoai hle hex
    exact runChecks_oneFire ts st o hend hoai hle hex
  · intro st ts hle
    refine runChecks_noFire ts st (fun t ht => ?_)
    have := hle t ht
    intro hcon
    linarith

theorem C5_witness :
    (runChecks stActive [701/1000]).commit_calls = stActive.commit_calls + 1 := by
  refine C5_inactivity_commit.2.1 stActive oaiOpen [701/1000] rfl rfl ?_ ?_
  · intro t ht
    simp only [List.mem_singleton] at ht
    rw [ht]
    show (701 : ℚ)/1000 - stActive.last_media_ts ≤ 701/1000
    norm_num [stActive]
  · refine ⟨701/1000, by simp, ?_⟩
    show (7 : ℚ)/10 < 701/1000 - stActive.last_media_ts
    norm_num [stActive]

/-- C6 counterexample: after a telephony `stop` event the session is torn
down — the loop ends and the speech client is closed — but no post-call hook
runs: the `finally` block (app/main.py:1662-1665) only calls `oai.close()`
and logs, so `hook_calls` is 0, not 1. -/
theorem C6_counterexample :
    (runLoop stActive [(1/10, TwMsg.stop)]).ended = true ∧
    (runLoop stActive [(1/10, TwMsg.stop)]).oai
      = some { oaiOpen with closeCount := 1 } ∧
    (runLoop stActive [(1/10, TwMsg.stop)]).hook_calls = 0 := by
  refine ⟨rfl, rfl, rfl⟩

theorem runLoop_ended : ∀ (msgs : List (ℚ × TwMsg)) (st : BridgeState),
    st.ended = true → runLoop st msgs = st
  | [], _, _ => rfl
  | (now, m) :: rest, st, h => by
      show runLoop (loopStep st now m) rest = st
      have hstep : loopStep st now m = st := by
        unfold loopStep
        rw [if_pos h]
      rw [hstep]
      exact runLoop_ended rest st h

/-- C6 amended: a `stop` event ends the receive loop, and every teardown
path — normal stop, exception (including malformed JSON), or telephony
disconnect — converges on the same `finally` teardown, which closes the
speech-client connection exactly once; an ended session ignores all further
items, so the close is not repeated. No post-call hook is invoked at
teardown. -/
theorem C6_stop_teardown :
    (∀ (st : BridgeState) (now : ℚ), st.ended = false →
        loopStep st now TwMsg.stop = endSession st ∧
        loopStep st now TwMsg.disconnect = endSession st ∧
        loopStep st now TwMsg.malformed = endSession st) ∧
    (∀ (st : BridgeState) (o : OAIState), st.oai = some o → o.ws = true →
        (endSession st).ended = true ∧
        (endSession st).oai = some { o with closeCount := o.closeCount + 1 } ∧
        (endSession st).hook_calls = st.hook_calls) ∧
    (∀ (st : BridgeState) (msgs : List (ℚ × TwMsg)), st.ended = true →
        runLoop st msgs = st) := by
  refine ⟨?_, ?_, fun st msgs h => runLoop_ended msgs st h⟩
  · intro st now h
    refine ⟨?_, ?_, ?_⟩ <;>
      · unfold loopStep
        rw [if_neg (by simp [h])]
  · intro st o hoai hws
    refine ⟨rfl, ?_, rfl⟩
    have h1 : (endSession st).oai = Option.map close st.oai := rfl
    rw [h1, hoai]
    show some (close o) = some { o with closeCount := o.closeCount + 1 }
    unfold close
    rw [if_pos hws]

theorem C6_witness :
    loopStep stActive (1/10) TwMsg.stop = endSession stActive ∧
    (endSession stActive).ended = true ∧
    (endSession stActive).oai = some { oaiOpen with closeCount := 1 } ∧
    (endSession stActive).hook_calls = stActive.hook_calls :=
  ⟨(C6_stop_teardown.1 stActive (1/10) rfl).1,
   (C6_stop_teardown.2.1 stActive oaiOpen rfl rfl).1,
   (C6_stop_teardown.2.1 stActive oaiOpen rfl rfl).2.1,
   (C6_stop_teardown.2.1 stActive oaiOpen rfl rfl).2.2⟩

theorem unpairs_length (l : List (Nat × Nat)) : (unpairs l).length = 2 * l.length := by
  induction l with
  | nil => rfl
  | cons p rest ih =>
      cases p
      simp only [unpairs, List.length_cons, ih]
      omega

theorem pairs_length : ∀ (x : List Nat), x.length % 2 = 0 →
    (pairs x).length = x.length / 2
  | [], _ => rfl
  | [_], h => by simp at h
  | a :: b :: rest, h => by
      have hr : rest.length % 2 = 0 := by
        simp only [List.length_cons] at h; omega
      simp only [pairs, List.length_cons, pairs_length rest hr]
      omega

theorem rep3_length {α : Type} (l : List α) : (rep3 l).length = 3 * l.length := by
  induction l with
  | nil => rfl
  | cons x xs ih =>
      simp only [rep3, List.length_cons, ih]
      omega

theorem decode_length (bs : List Nat) :
    (pcmu8k_to_pcm16_8k bs).length = 2 * bs.length := by
  unfold pcmu8k_to_pcm16_8k
  rw [unpairs_length, List.length_map]

theorem chunk_length (p : List Nat) (h : p.length = 160) :
    (upsample_8k_to_24k (pcmu8k_to_pcm16_8k p)).length = 960 := by
  unfold upsample_8k_to_24k
  rw [unpairs_length, rep3_length, pairs_length _ (by rw [decode_length, h]),
    decode_length, h]

theorem send_open (o : OAIState) (hws : o.ws = true) (c : List Nat) :
    (send_pcm16_24k o c).1
      = { o with audio_buffer_size := o.audio_buffer_size + c.length } := by
  unfold send_pcm16_24k
  rw [if_pos hws]

theorem loopStep_media (st : BridgeState) (o : OAIState) (now : ℚ) (p : List Nat)
    (hend : st.ended = false) (hoai : st.oai = some o) :
    loopStep st now (TwMsg.media p) =
      { st with
          oai := some (send_pcm16_24k o
            (upsample_8k_to_24k (pcmu8k_to_pcm16_8k p))).1
          last_media_ts := now } := by
  unfold loopStep
  rw [if_neg (by simp [hend])]
  show inactivityCheck now _ = _
  rw [hoai]
  dsimp only
  unfold inactivityCheck
  dsimp only
  rw [if_neg (by norm_num)]

/-- C8: from an empty buffer, three inbound media frames of 160 mu-law bytes
each leave `audio_buffer_size = 2880` (each frame becomes 160·2 PCM16 bytes,
then ×3 upsampled = 960 bytes, over 3 frames), and a `commit_and_respond`
issued right after is a no-op since 2880 < 4800. -/
theorem C8_three_frames (st : BridgeState) (o : OAIState) (p1 p2 p3 : List Nat)
    (hend : st.ended = false) (hoai : st.oai = some o) (hws : o.ws = true)
    (hbuf : o.audio_buffer_size = 0)
    (h1 : p1.length = 160) (h2 : p2.length = 160) (h3 : p3.length = 160)
    (t1 t2 t3 : ℚ) :
    ∃ o2 : OAIState,
      (runLoop st [(t1, TwMsg.media p1), (t2, TwMsg.media p2),
        (t3, TwMsg.media p3)]).oai = some o2 ∧
      o2.audio_buffer_size = 2880 ∧
      commit_and_respond o2 = (o2, []) := by
  have hfinal : runLoop st [(t1, TwMsg.media p1), (t2, TwMsg.media p2),
      (t3, TwMsg.media p3)] =
      { st with
          oai := some { o with
            audio_buffer_size := o.audio_buffer_size + 960 + 960 + 960 }
          last_media_ts := t3 } := by
    have e1 : loopStep st t1 (TwMsg.media p1)
        = { st with
            oai := some { o with
              audio_buffer_size := o.audio_buffer_size + 960 }
            last_media_ts := t1 } := by
      rw [loopStep_media st o t1 p1 hend hoai, send_open o hws,
        chunk_length p1 h1]
    have e2 : loopStep
        { st with
            oai := some { o with
              audio_buffer_size := o.audio_buffer_size + 960 }
            last_media_ts := t1 } t2 (TwMsg.media p2)
        = { st with
            oai := some { o with
              audio_buffer_size := o.audio_buffer_size + 960 + 960 }
            last_media_ts := t2 } := by
      rw [loopStep_media
          { st with
              oai := some { o with
                audio_buffer_size := o.audio_buffer_size + 960 }
              last_media_ts := t1 }
          { o with audio_buffer_size := o.audio_buffer_size + 960 }
          t2 p2 hend rfl,
        send_open { o with audio_buffer_size := o.audio_buffer_size + 960 }
          hws, chunk_length p2 h2]
    have e3 : loopStep
        { st with
            oai := some { o with
              audio_buffer_size := o.audio_buffer_size + 960 + 960 }
            last_media_ts := t2 } t3 (TwMsg.media p3)
        = { st with
            oai := some { o with
              audio_buffer_size := o.audio_buffer_size + 960 + 960 + 960 }
            last_media_ts := t3 } := by
      rw [loopStep_media
          { st with
              oai := some { o with
                audio_buffer_size := o.audio_buffer_size + 960 + 960 }
              last_media_ts := t2 }
          { o with audio_buffer_size := o.audio_buffer_size + 960 + 960 }
          t3 p3 hend rfl,
        send_open { o with
          audio_buffer_size := o.audio_buffer_size + 960 + 960 } hws,
        chunk_length p3 h3]
    show loopStep (loopStep (loopStep st t1 (TwMsg.media p1)) t2
      (TwMsg.media p2)) t3 (TwMsg.media p3) = _
    rw [e1, e2, e3]
  refine ⟨{ o with audio_buffer_size := o.audio_buffer_size + 960 + 960 + 960 },
    ?_, ?_, ?_⟩
  · rw [hfinal]
  · show o.audio_buffer_size + 960 + 960 + 960 = 2880
    omega
  · have hws2 : ({ o with
        audio_buffer_size := o.audio_buffer_size + 960 + 960 + 960 }
          : OAIState).ws = true := hws
    unfold commit_and_respond
    rw [if_pos hws2, if_neg (by show ¬ 4800 ≤ o.audio_buffer_size + 960 + 960 + 960; omega)]

theorem C8_witness :
    ∃ o2 : OAIState,
      (runLoop stActive [(1, TwMsg.media (List.replicate 160 0)),
        (2, TwMsg.media (List.replicate 160 0)),
        (3, TwMsg.media (List.replicate 160 0))]).oai = some o2 ∧
      o2.audio_buffer_size = 2880 ∧
      commit_and_respond o2 = (o2, []) :=
  C8_three_frames stActive oaiOpen _ _ _ rfl rfl rfl rfl
    (by simp) (by simp) (by simp) 1 2 3

/-- C9: `connect` blocks its caller at most 5 seconds waiting for the ready
signal, and returns normally — never raising or propagating a failure —
whether or not the signal arrived in time. -/
theorem C9_connect_timeout (ready_at : Option ℚ) :
    ∃ d : ℚ, connect_wait ready_at = Except.ok d ∧ d ≤ 5 := by
  cases ready_at with
  | none => exact ⟨5, rfl, le_refl 5⟩
  | some t => exact ⟨min t 5, rfl, min_le_right t 5⟩

/-- C10: on a telephony `start` event, the session's `is_callback` flag is
true exactly when `customParameters.is_callback` is the JSON string
`"True"`; any other value (the string `"true"`, the string `"1"`, a JSON
boolean, a number, null) or an absent parameter yields false. -/
theorem C10_is_callback (st : BridgeState) (now : ℚ) (sid : String)
    (uid : Option String) (cb : Option JValue) (hend : st.ended = false) :
    ((loopStep st now (TwMsg.start sid uid cb)).is_callback = true
      ↔ cb = some (JValue.jstr "True")) := by
  have hic : ∀ s2 : BridgeState,
      (inactivityCheck now s2).is_callback = s2.is_callback := by
    intro s2
    unfold inactivityCheck
    cases s2.oai with
    | none => rfl
    | some o =>
        dsimp only
        split <;> rfl
  unfold loopStep
  rw [if_neg (by simp [hend])]
  show (inactivityCheck now _).is_callback = true ↔ _
  rw [hic]
  show is_callback_flag cb = true ↔ _
  cases cb with
  | none => simp [is_callback_flag]
  | some v =>
      cases v with
      | jstr s => simp [is_callback_flag]
      | jbool b => simp [is_callback_flag]
      | jnum n => simp [is_callback_flag]
      | jnull => simp [is_callback_flag]

/-- A fresh bridge session before any telephony event. -/
def stIdle : BridgeState :=
  { stream_sid := none, oai := none, last_media_ts := 0
    ended := false, commit_calls := 0, hook_calls := 0, is_callback := false }

theorem C10_witness :
    (loopStep stIdle 0 (TwMsg.start "MZ1" (some "42")
      (some (JValue.jstr "True")))).is_callback = true :=
  (C10_is_callback stIdle 0 "MZ1" (some "42")
    (some (JValue.jstr "True")) rfl).mpr rfl

end AiMemory
